import Mathlib

/-!
Verification development for the AgentOven agent runner
(control-plane/internal/process/templates/agent_runner.py).

The runner is an A2A JSON-RPC task server: it stores tasks in an in-memory
map, fulfils a task by one call to a configured LLM provider, and exposes
send / get / cancel operations. The embedding below translates the
request-construction code (get_api_url and the body/header part of
call_llm), the reply-extraction code (the tail of call_llm), the task
lifecycle (create_task) and the dispatcher (handle_jsonrpc) into Lean.

Python values flowing through the dispatcher are modelled by a small JSON
type. Python operations that can raise are modelled in the Option monad:
a result of none stands for a raised exception, some v for a normal
return of v. The network side effect inside call_llm is abstracted by an
oracle parameter giving the outcome of the provider call (the returned
text, or the textual description of the raised exception); everything
around that call is translated directly from the source.
-/

/-- JSON-like values, the shape of Python dict/list/str/int/bool/None data
flowing through the runner. -/
inductive Json where
  | null : Json
  | bool : Bool → Json
  | num : Int → Json
  | str : String → Json
  | arr : List Json → Json
  | obj : List (String × Json) → Json

mutual

/-- Boolean structural equality on Json values. -/
def Json.beq : Json → Json → Bool
  | .null, .null => true
  | .bool a, .bool b => a == b
  | .num a, .num b => a == b
  | .str a, .str b => a == b
  | .arr xs, .arr ys => Json.beqList xs ys
  | .obj fs, .obj gs => Json.beqFields fs gs
  | _, _ => false

/-- Boolean equality on lists of Json values. -/
def Json.beqList : List Json → List Json → Bool
  | [], [] => true
  | x :: xs, y :: ys => Json.beq x y && Json.beqList xs ys
  | _, _ => false

/-- Boolean equality on Json object field lists. -/
def Json.beqFields : List (String × Json) → List (String × Json) → Bool
  | [], [] => true
  | (k, v) :: fs, (l, w) :: gs => k == l && Json.beq v w && Json.beqFields fs gs
  | _, _ => false

end

mutual

theorem Json.eq_of_beq : ∀ a b : Json, Json.beq a b = true → a = b
  | .null, .null, _ => rfl
  | .bool a, .bool b, h => by simp [Json.beq] at h; simp [h]
  | .num a, .num b, h => by simp [Json.beq] at h; simp [h]
  | .str a, .str b, h => by simp [Json.beq] at h; simp [h]
  | .arr xs, .arr ys, h => by
      simp only [Json.beq] at h
      exact congrArg Json.arr (Json.eqList_of_beq xs ys h)
  | .obj fs, .obj gs, h => by
      simp only [Json.beq] at h
      exact congrArg Json.obj (Json.eqFields_of_beq fs gs h)

theorem Json.eqList_of_beq : ∀ xs ys : List Json, Json.beqList xs ys = true → xs = ys
  | [], [], _ => rfl
  | x :: xs, y :: ys, h => by
      simp only [Json.beqList, Bool.and_eq_true] at h
      rw [Json.eq_of_beq x y h.1, Json.eqList_of_beq xs ys h.2]

theorem Json.eqFields_of_beq :
    ∀ fs gs : List (String × Json), Json.beqFields fs gs = true → fs = gs
  | [], [], _ => rfl
  | (k, v) :: fs, (l, w) :: gs, h => by
      simp only [Json.beqFields, Bool.and_eq_true] at h
      rw [Json.eq_of_beq v w h.1.2, Json.eqFields_of_beq fs gs h.2]
      simp only [beq_iff_eq] at h
      rw [h.1.1]

end

mutual

theorem Json.beq_refl : ∀ a : Json, Json.beq a a = true
  | .null => rfl
  | .bool a => by simp [Json.beq]
  | .num a => by simp [Json.beq]
  | .str a => by simp [Json.beq]
  | .arr xs => by simp only [Json.beq]; exact Json.beqList_refl xs
  | .obj fs => by simp only [Json.beq]; exact Json.beqFields_refl fs

theorem Json.beqList_refl : ∀ xs : List Json, Json.beqList xs xs = true
  | [] => rfl
  | x :: xs => by
      simp only [Json.beqList, Bool.and_eq_true]
      exact ⟨Json.beq_refl x, Json.beqList_refl xs⟩

theorem Json.beqFields_refl : ∀ fs : List (String × Json), Json.beqFields fs fs = true
  | [] => rfl
  | (k, v) :: fs => by
      simp only [Json.beqFields, Bool.and_eq_true, beq_self_eq_true]
      exact ⟨⟨trivial, Json.beq_refl v⟩, Json.beqFields_refl fs⟩

end

instance : DecidableEq Json := fun a b =>
  decidable_of_iff (Json.beq a b = true)
    ⟨Json.eq_of_beq a b, fun h => h ▸ Json.beq_refl a⟩

/-- A single-quote character as a string, used when rebuilding the Python
error-message strings of the source. -/
def sgq : String := "\x27"

/-- Python d.get(key, dflt) on a Json value: returns the stored value or the
default when the receiver is a dict, raises (none) otherwise. -/
def pyGet (j : Json) (key : String) (dflt : Json) : Option Json :=
  match j with
  | Json.obj fields => some ((fields.lookup key).getD dflt)
  | _ => none

/-- Python indexing j[i]: element of a list, one-character string of a str;
anything else (and an out-of-range index) raises, modelled as none. -/
def pyIndex (j : Json) (i : Nat) : Option Json :=
  match j with
  | Json.arr xs => xs.get? i
  | Json.str s => (s.toList.get? i).map (fun ch => Json.str (String.mk [ch]))
  | _ => none

/-- Python iteration over a value: list elements, characters of a str, keys
of a dict; numbers, booleans and None are not iterable and raise. -/
def pyIter (j : Json) : Option (List Json) :=
  match j with
  | Json.arr xs => some xs
  | Json.str s => some (s.toList.map (fun ch => Json.str (String.mk [ch])))
  | Json.obj fields => some (fields.map (fun kv => Json.str kv.1))
  | _ => none

mutual

/-- Python repr of a Json value (string escaping inside quotes elided). -/
def pyRepr : Json → String
  | Json.null => "None"
  | Json.bool true => "True"
  | Json.bool false => "False"
  | Json.num n => toString n
  | Json.str s => sgq ++ s ++ sgq
  | Json.arr xs => "[" ++ String.intercalate ", " (pyReprList xs) ++ "]"
  | Json.obj fs => "\x7b" ++ String.intercalate ", " (pyReprFields fs) ++ "\x7d"

/-- Python reprs of the elements of a list. -/
def pyReprList : List Json → List String
  | [] => []
  | x :: xs => pyRepr x :: pyReprList xs

/-- Python reprs of the key: value entries of a dict. -/
def pyReprFields : List (String × Json) → List String
  | [] => []
  | (k, v) :: fs => (sgq ++ k ++ sgq ++ ": " ++ pyRepr v) :: pyReprFields fs

end

/-- Python str() of a Json value, as used by f-string interpolation. -/
def pyStrOf (j : Json) : String :=
  match j with
  | Json.str s => s
  | _ => pyRepr j

/-- Process-wide agent configuration, read from the environment at start
(agent_runner.py lines 34 to 43); only the fields the embedded code reads. -/
structure Config where
  modelProvider : String
  modelName : String
  apiKey : String
  apiEndpoint : String
  agentDescription : String
  deriving DecidableEq

/-- A canonical chat message: a role and text content. -/
structure Message where
  role : String
  content : String
  deriving DecidableEq

/-- The Json serialization of a canonical message, as placed in request
bodies. -/
def msgJson (m : Message) : Json :=
  Json.obj [("role", Json.str m.role), ("content", Json.str m.content)]

/-- An outbound provider request: URL, header list and Json body
(urllib.request.Request as built in call_llm). -/
structure Request where
  url : String
  headers : List (String × String)
  body : Json
  deriving DecidableEq

/-- Python endpoint.rstrip for the slash character. -/
def rstripSlash (s : String) : String :=
  String.mk ((s.toList.reverse.dropWhile (fun c => c = '/')).reverse)

/-- get_api_url (agent_runner.py lines 47 to 64): the chat completions URL
for the configured provider. -/
def get_api_url (c : Config) : String :=
  if c.apiEndpoint ≠ "" then
    let base := rstripSlash c.apiEndpoint
    if c.modelProvider = "azure-openai" then
      base ++ "/openai/deployments/" ++ c.modelName ++
        "/chat/completions?api-version=2024-12-01-preview"
    else if c.modelProvider = "ollama" then
      base ++ "/api/chat"
    else
      base ++ "/v1/chat/completions"
  else if c.modelProvider = "openai" then
    "https://api.openai.com/v1/chat/completions"
  else if c.modelProvider = "anthropic" then
    "https://api.anthropic.com/v1/messages"
  else if c.modelProvider = "ollama" then
    "http://localhost:11434/api/chat"
  else
    "https://api.openai.com/v1/chat/completions"

/-- The anthropic branch of call_llm (lines 76 to 82): a loop over the
messages keeping the content of the last system message seen and
accumulating the non-system messages in order. -/
def anthropicSplit (messages : List Message) : String × List Message :=
  messages.foldl
    (fun acc m => if m.role = "system" then (m.content, acc.2) else (acc.1, acc.2 ++ [m]))
    ("", [])

/-- The request-construction part of call_llm (lines 72 to 122): URL,
headers and Json body per provider. -/
def buildRequest (c : Config) (messages : List Message) : Request :=
  let url := get_api_url c
  if c.modelProvider = "anthropic" then
    let sp := anthropicSplit messages
    let baseBody := [("model", Json.str c.modelName), ("max_tokens", Json.num 4096),
      ("messages", Json.arr (sp.2.map msgJson))]
    { url := url,
      headers := [("Content-Type", "application/json"), ("x-api-key", c.apiKey),
        ("anthropic-version", "2023-06-01")],
      body := Json.obj (if sp.1 ≠ "" then baseBody ++ [("system", Json.str sp.1)] else baseBody) }
  else if c.modelProvider = "ollama" then
    { url := url,
      headers := [("Content-Type", "application/json")],
      body := Json.obj [("model", Json.str c.modelName),
        ("messages", Json.arr (messages.map msgJson)), ("stream", Json.bool false)] }
  else
    { url := url,
      headers :=
        if c.modelProvider = "azure-openai" then
          [("Content-Type", "application/json"), ("api-key", c.apiKey)]
        else
          [("Content-Type", "application/json"), ("Authorization", "Bearer " ++ c.apiKey)],
      body := Json.obj [("model", Json.str c.modelName),
        ("messages", Json.arr (messages.map msgJson)),
        ("max_completion_tokens", Json.num 4096)] }

/-- The reply-extraction tail of call_llm (lines 131 to 137), with Python
exceptions modelled as none. -/
def parseReply (provider : String) (result : Json) : Option Json :=
  if provider = "anthropic" then do
    let c ← pyGet result "content" (Json.arr [Json.obj []])
    let c0 ← pyIndex c 0
    pyGet c0 "text" (Json.str "")
  else if provider = "ollama" then do
    let m ← pyGet result "message" (Json.obj [])
    pyGet m "content" (Json.str "")
  else do
    let ch ← pyGet result "choices" (Json.arr [Json.obj []])
    let c0 ← pyIndex ch 0
    let m ← pyGet c0 "message" (Json.obj [])
    pyGet m "content" (Json.str "")

/-- Task status: a state string plus the optional failure message object
(the status dict of agent_runner.py). -/
structure TaskStatus where
  state : String
  message : Option Json
  deriving DecidableEq

/-- A stored task record (the task dict of create_task). The id is a Json
value because Python accepts any params id as a dict key. -/
structure TaskRec where
  id : Json
  status : TaskStatus
  artifacts : List Json
  history : List Json
  deriving DecidableEq

/-- The in-memory task store (the module-level tasks dict), as an
association list keyed by task id. -/
abbrev Store : Type := List (Json × TaskRec)

/-- Dict lookup in the task store. -/
def storeGet : Store → Json → Option TaskRec
  | [], _ => none
  | (k0, v0) :: rest, k => if k0 = k then some v0 else storeGet rest k

/-- Dict assignment in the task store: replaces the binding when present,
appends it otherwise. -/
def storeSet : Store → Json → TaskRec → Store
  | [], k, v => [(k, v)]
  | (k0, v0) :: rest, k, v =>
      if k0 = k then (k, v) :: rest else (k0, v0) :: storeSet rest k v

/-- A text content part, as appended to artifacts and history. -/
def textPart (t : String) : Json :=
  Json.obj [("type", Json.str "text"), ("text", Json.str t)]

/-- The outcome of one provider call: the reply text, or the textual
description of the exception call_llm raised. -/
inductive LLMResult where
  | ok : String → LLMResult
  | err : String → LLMResult
  deriving DecidableEq

/-- The message-list construction of create_task (lines 156 to 159): an
optional leading system message from the configured description, then one
user message. -/
def buildMessages (description : String) (user_message : String) : List Message :=
  (if description ≠ "" then [⟨"system", description⟩] else []) ++ [⟨"user", user_message⟩]

/-- create_task (lines 145 to 179): stores a fresh record in state working,
runs the provider call, and rewrites the record to completed with one
artifact and one history entry on success, or to failed carrying the error
text on any exception. The oracle gives the outcome of call_llm on the
built message list. -/
def create_task (cfg : Config) (oracle : List Message → LLMResult)
    (task_id : Json) (user_message : String) (store : Store) : TaskRec × Store :=
  let task0 : TaskRec :=
    { id := task_id, status := { state := "working", message := none },
      artifacts := [], history := [] }
  let store1 := storeSet store task_id task0
  match oracle (buildMessages cfg.agentDescription user_message) with
  | LLMResult.ok text =>
      let task : TaskRec :=
        { task0 with
          status := { state := "completed", message := none },
          artifacts := [Json.obj [("parts", Json.arr [textPart text])]],
          history := [Json.obj [("role", Json.str "agent"),
            ("parts", Json.arr [textPart text])]] }
      (task, storeSet store1 task_id task)
  | LLMResult.err emsg =>
      let fmsg : Json :=
        Json.obj [("role", Json.str "agent"), ("parts", Json.arr [textPart emsg])]
      let task : TaskRec :=
        { task0 with status := { state := "failed", message := some fmsg } }
      (task, storeSet store1 task_id task)

/-- The Json rendering of a status dict: the failed state carries a message
key, the others only the state. -/
def statusJson (st : TaskStatus) : Json :=
  match st.message with
  | none => Json.obj [("state", Json.str st.state)]
  | some m => Json.obj [("state", Json.str st.state), ("message", m)]

/-- The Json rendering of a task record, with the key order of the dict
built by create_task. -/
def taskJson (t : TaskRec) : Json :=
  Json.obj [("id", t.id), ("status", statusJson t.status),
    ("artifacts", Json.arr t.artifacts), ("history", Json.arr t.history)]

/-- jsonrpc_result (lines 243 to 244). -/
def jsonrpc_result (req_id : Json) (result : Json) : Json :=
  Json.obj [("jsonrpc", Json.str "2.0"), ("id", req_id), ("result", result)]

/-- jsonrpc_error (lines 247 to 248). -/
def jsonrpc_error (req_id : Json) (code : Int) (message : String) : Json :=
  Json.obj [("jsonrpc", Json.str "2.0"), ("id", req_id),
    ("error", Json.obj [("code", Json.num code), ("message", Json.str message)])]

/-- The user-text accumulation loop of tasks/send (lines 213 to 217),
carried out from an accumulator: dict parts holding a text key contribute
their text (a non-string text value raises), everything else is skipped. -/
def gatherTextFrom (acc : String) : List Json → Option String
  | [] => some acc
  | p :: rest =>
      match p with
      | Json.obj fields =>
          match fields.lookup "text" with
          | some (Json.str t) => gatherTextFrom (acc ++ t) rest
          | some _ => none
          | none => gatherTextFrom acc rest
      | _ => gatherTextFrom acc rest

/-- The concatenated user text of a parts list. -/
def gatherText (parts : List Json) : Option String :=
  gatherTextFrom "" parts

/-- Whether a part is a dict carrying a text key (the condition of line
216). -/
def partHasText : Json → Bool
  | Json.obj fields => (fields.lookup "text").isSome
  | _ => false

/-- The tasks/send branch of handle_jsonrpc (lines 209 to 223). The fresh
uuid generated when params carry no id is the freshId parameter. -/
def handle_send (cfg : Config) (oracle : List Message → LLMResult) (params : Json)
    (req_id : Json) (freshId : String) (store : Store) : Option (Json × Store) := do
  let task_id ← pyGet params "id" (Json.str freshId)
  let message ← pyGet params "message" (Json.obj [])
  let partsJ ← pyGet message "parts" (Json.arr [])
  let parts ← pyIter partsJ
  let user_text ← gatherText parts
  if user_text = "" then
    pure (jsonrpc_error req_id (-32602) "No text content in message", store)
  else
    let ts := create_task cfg oracle task_id user_text store
    pure (jsonrpc_result req_id (taskJson ts.1), ts.2)

/-- The tasks/get branch of handle_jsonrpc (lines 225 to 230). -/
def handle_get (params : Json) (req_id : Json) (store : Store) : Option (Json × Store) := do
  let task_id ← pyGet params "id" (Json.str "")
  match storeGet store task_id with
  | none =>
      pure (jsonrpc_error req_id (-32602)
        ("Task " ++ sgq ++ pyStrOf task_id ++ sgq ++ " not found"), store)
  | some t => pure (jsonrpc_result req_id (taskJson t), store)

/-- The tasks/cancel branch of handle_jsonrpc (lines 232 to 237): if the id
is stored its status is replaced by canceled, and the response is always a
result envelope holding only the id and the canceled status. -/
def handle_cancel (params : Json) (req_id : Json) (store : Store) : Option (Json × Store) := do
  let task_id ← pyGet params "id" (Json.str "")
  let store2 :=
    match storeGet store task_id with
    | some t => storeSet store task_id { t with status := { state := "canceled", message := none } }
    | none => store
  pure (jsonrpc_result req_id
    (Json.obj [("id", task_id), ("status", Json.obj [("state", Json.str "canceled")])]), store2)

/-- handle_jsonrpc (lines 203 to 240): method dispatch. The method is the
string request.get("method", ""), params the value request.get("params"),
req_id the value request.get("id"). -/
def handle_jsonrpc (cfg : Config) (oracle : List Message → LLMResult) (method : String)
    (params : Json) (req_id : Json) (freshId : String) (store : Store) :
    Option (Json × Store) :=
  if method = "tasks/send" then
    handle_send cfg oracle params req_id freshId store
  else if method = "tasks/get" then
    handle_get params req_id store
  else if method = "tasks/cancel" then
    handle_cancel params req_id store
  else
    some (jsonrpc_error req_id (-32601) ("Method " ++ sgq ++ method ++ sgq ++ " not found"), store)

/-- Follows the spec (section 4.1 table): the documented URL rule for each
of the four provider variants — fixed default, or the endpoint-derived
path when an endpoint override is configured. -/
def specUrl (c : Config) : String :=
  if c.modelProvider = "openai" then
    if c.apiEndpoint ≠ "" then c.apiEndpoint ++ "/v1/chat/completions"
    else "https://api.openai.com/v1/chat/completions"
  else if c.modelProvider = "azure-openai" then
    c.apiEndpoint ++ "/openai/deployments/" ++ c.modelName ++
      "/chat/completions?api-version=2024-12-01-preview"
  else if c.modelProvider = "anthropic" then
    if c.apiEndpoint ≠ "" then c.apiEndpoint ++ "/v1/chat/completions"
    else "https://api.anthropic.com/v1/messages"
  else if c.modelProvider = "ollama" then
    if c.apiEndpoint ≠ "" then c.apiEndpoint ++ "/api/chat"
    else "http://localhost:11434/api/chat"
  else ""

/-- Follows the spec (section 4.1 table): the documented auth headers per
provider — Authorization Bearer for openai, api-key for azure-openai,
x-api-key plus anthropic-version for anthropic, none for ollama — plus the
Content-Type header set on every request. -/
def specHeaders (c : Config) : List (String × String) :=
  if c.modelProvider = "anthropic" then
    [("Content-Type", "application/json"), ("x-api-key", c.apiKey),
      ("anthropic-version", "2023-06-01")]
  else if c.modelProvider = "ollama" then
    [("Content-Type", "application/json")]
  else if c.modelProvider = "azure-openai" then
    [("Content-Type", "application/json"), ("api-key", c.apiKey)]
  else
    [("Content-Type", "application/json"), ("Authorization", "Bearer " ++ c.apiKey)]

/-- Follows the spec (section 4.1 table): the documented body field names
and nesting per provider — model, messages, max_completion_tokens for the
openai-compatible variants; model, max_tokens, messages plus an optional
trailing system field for anthropic; model, messages, stream false for
ollama. The messages field nests an array of role/content objects. -/
def specBodyShape (c : Config) (msgs : List Message) (body : Json) : Prop :=
  if c.modelProvider = "anthropic" then
    (∃ ms : List Message, ∃ tok : Int,
      body = Json.obj [("model", Json.str c.modelName), ("max_tokens", Json.num tok),
        ("messages", Json.arr (ms.map msgJson))]) ∨
    (∃ ms : List Message, ∃ tok : Int, ∃ sys : String,
      body = Json.obj [("model", Json.str c.modelName), ("max_tokens", Json.num tok),
        ("messages", Json.arr (ms.map msgJson)), ("system", Json.str sys)])
  else if c.modelProvider = "ollama" then
    body = Json.obj [("model", Json.str c.modelName),
      ("messages", Json.arr (msgs.map msgJson)), ("stream", Json.bool false)]
  else
    ∃ tok : Int,
      body = Json.obj [("model", Json.str c.modelName),
        ("messages", Json.arr (msgs.map msgJson)), ("max_completion_tokens", Json.num tok)]

/-- The non-system messages of a list, in their original order. -/
def nonSystemMsgs (msgs : List Message) : List Message :=
  msgs.filter (fun m => !(m.role == "system"))

/-- The content of the last system message of a list, or the empty string
when there is none. -/
def lastSystemContent (msgs : List Message) : String :=
  match (msgs.filter (fun m => m.role == "system")).getLast? with
  | some m => m.content
  | none => ""

theorem getLast?_elim_cons {α β : Type} (f : α → β) (l : List α) :
    ∀ (a : α) (d : β), ((a :: l).getLast?).elim d f = (l.getLast?).elim (f a) f := by
  induction l with
  | nil => intro a d; rfl
  | cons b l ih =>
      intro a d
      rw [List.getLast?_cons_cons]
      exact (ih b d).trans (ih b (f a)).symm

theorem anthropicSplit_foldl (msgs : List Message) :
    ∀ acc : String × List Message,
      msgs.foldl
        (fun acc m =>
          if m.role = "system" then (m.content, acc.2) else (acc.1, acc.2 ++ [m]))
        acc =
      (((msgs.filter (fun m => m.role == "system")).getLast?).elim acc.1 (fun m => m.content),
        acc.2 ++ nonSystemMsgs msgs) := by
  induction msgs with
  | nil => intro acc; simp [nonSystemMsgs]
  | cons m rest ih =>
      intro acc
      by_cases hm : m.role = "system"
      · simp only [List.foldl_cons, if_pos hm, ih, nonSystemMsgs, List.filter_cons,
          hm, beq_self_eq_true, if_pos, Bool.not_true]
        rw [getLast?_elim_cons]
        simp
      · simp only [List.foldl_cons, if_neg hm, ih, nonSystemMsgs, List.filter_cons]
        have hb : (m.role == "system") = false := by
          simp [hm]
        simp [hb, List.append_assoc]

/-- The system/messages split of the anthropic branch, described in spec
vocabulary: the last system message content and the non-system messages in
order. -/
theorem anthropicSplit_spec (msgs : List Message) :
    anthropicSplit msgs = (lastSystemContent msgs, nonSystemMsgs msgs) := by
  rw [anthropicSplit, anthropicSplit_foldl msgs ("", [])]
  simp only [lastSystemContent, List.nil_append]
  cases h : (msgs.filter (fun m => m.role == "system")).getLast? <;> simp [h]

theorem storeGet_storeSet_self (s : Store) (k : Json) (v : TaskRec) :
    storeGet (storeSet s k v) k = some v := by
  induction s with
  | nil => simp [storeSet, storeGet]
  | cons hd tl ih =>
      obtain ⟨k0, v0⟩ := hd
      by_cases h : k0 = k
      · simp [storeSet, storeGet, h]
      · simp [storeSet, storeGet, h, ih]

theorem storeGet_storeSet_ne (s : Store) (k k2 : Json) (v : TaskRec) (h : k2 ≠ k) :
    storeGet (storeSet s k v) k2 = storeGet s k2 := by
  have h2 : ¬ k = k2 := fun hh => h hh.symm
  induction s with
  | nil => simp [storeSet, storeGet, h2]
  | cons hd tl ih =>
      obtain ⟨k0, v0⟩ := hd
      by_cases h0 : k0 = k
      · subst h0
        simp [storeSet, storeGet, h2]
      · simp [storeSet, storeGet, h0, ih]

theorem create_task_stores_result (cfg : Config) (oracle : List Message → LLMResult)
    (task_id : Json) (um : String) (store : Store) :
    storeGet (create_task cfg oracle task_id um store).2 task_id =
      some (create_task cfg oracle task_id um store).1 := by
  unfold create_task
  cases oracle (buildMessages cfg.agentDescription um) <;>
    simp [storeGet_storeSet_self]

theorem create_task_terminal (cfg : Config) (oracle : List Message → LLMResult)
    (task_id : Json) (um : String) (store : Store) :
    (create_task cfg oracle task_id um store).1.status.state = "completed" ∨
      (create_task cfg oracle task_id um store).1.status.state = "failed" := by
  unfold create_task
  cases oracle (buildMessages cfg.agentDescription um) <;> simp

theorem create_task_fresh (cfg : Config) (oracle : List Message → LLMResult)
    (task_id : Json) (um : String) (store : Store) :
    (create_task cfg oracle task_id um store).1 = (create_task cfg oracle task_id um []).1 := by
  unfold create_task
  cases oracle (buildMessages cfg.agentDescription um) <;> simp

theorem handle_send_eq (cfg : Config) (oracle : List Message → LLMResult)
    (params req_id : Json) (freshId : String) (store : Store)
    (task_id message partsJ : Json) (parts : List Json) (user_text : String)
    (hid : pyGet params "id" (Json.str freshId) = some task_id)
    (hmsg : pyGet params "message" (Json.obj []) = some message)
    (hpartsJ : pyGet message "parts" (Json.arr []) = some partsJ)
    (hparts : pyIter partsJ = some parts)
    (htext : gatherText parts = some user_text)
    (hne : user_text ≠ "") :
    handle_send cfg oracle params req_id freshId store =
      some (jsonrpc_result req_id (taskJson (create_task cfg oracle task_id user_text store).1),
        (create_task cfg oracle task_id user_text store).2) := by
  simp [handle_send, hid, hmsg, hpartsJ, hparts, htext, hne]

/-- C1: for every valid tasks/send request — one whose message parts yield
a non-empty concatenated user text — the task in the returned JSON-RPC
result envelope and the record stored under its identifier have status
state exactly completed or exactly failed at the moment the call returns;
the call never leaves the task in state working. -/
theorem tasks_send_terminal_status (cfg : Config) (oracle : List Message → LLMResult)
    (params req_id : Json) (freshId : String) (store : Store)
    (task_id message partsJ : Json) (parts : List Json) (user_text : String)
    (hid : pyGet params "id" (Json.str freshId) = some task_id)
    (hmsg : pyGet params "message" (Json.obj []) = some message)
    (hpartsJ : pyGet message "parts" (Json.arr []) = some partsJ)
    (hparts : pyIter partsJ = some parts)
    (htext : gatherText parts = some user_text)
    (hne : user_text ≠ "") :
    ∃ t : TaskRec, ∃ store2 : Store,
      handle_jsonrpc cfg oracle "tasks/send" params req_id freshId store =
        some (jsonrpc_result req_id (taskJson t), store2) ∧
      (t.status.state = "completed" ∨ t.status.state = "failed") ∧
      storeGet store2 task_id = some t := by
  refine ⟨(create_task cfg oracle task_id user_text store).1,
    (create_task cfg oracle task_id user_text store).2, ?_, ?_, ?_⟩
  · simpa [handle_jsonrpc] using
      handle_send_eq cfg oracle params req_id freshId store task_id message partsJ parts
        user_text hid hmsg hpartsJ hparts htext hne
  · exact create_task_terminal cfg oracle task_id user_text store
  · exact create_task_stores_result cfg oracle task_id user_text store

/-- C1 witness: the concrete valid request of the spec example, with the
provider call succeeding. -/
theorem tasks_send_terminal_status_witness :
    ∃ t : TaskRec, ∃ store2 : Store,
      handle_jsonrpc ⟨"ollama", "m", "", "", ""⟩ (fun _ => LLMResult.ok "Hello!") "tasks/send"
          (Json.obj [("id", Json.str "t1"), ("message", Json.obj [("parts",
            Json.arr [Json.obj [("text", Json.str "Hi")]])])]) (Json.num 1) "u" [] =
        some (jsonrpc_result (Json.num 1) (taskJson t), store2) ∧
      (t.status.state = "completed" ∨ t.status.state = "failed") ∧
      storeGet store2 (Json.str "t1") = some t :=
  tasks_send_terminal_status ⟨"ollama", "m", "", "", ""⟩ (fun _ => LLMResult.ok "Hello!")
    (Json.obj [("id", Json.str "t1"), ("message", Json.obj [("parts",
      Json.arr [Json.obj [("text", Json.str "Hi")]])])]) (Json.num 1) "u" []
    (Json.str "t1") (Json.obj [("parts", Json.arr [Json.obj [("text", Json.str "Hi")]])])
    (Json.arr [Json.obj [("text", Json.str "Hi")]]) [Json.obj [("text", Json.str "Hi")]] "Hi"
    (by decide) (by decide) (by decide) (by decide) (by decide) (by decide)

/-- The configuration used by the replay scenario below. -/
def replayCfg : Config := ⟨"ollama", "m", "", "", ""⟩

/-- A tasks/send params object with the fixed id t and the given text. -/
def replayParams (txt : String) : Json :=
  Json.obj [("id", Json.str "t"),
    ("message", Json.obj [("parts", Json.arr [Json.obj [("text", Json.str txt)]])])]

/-- The store after a first tasks/send of id t whose provider call raises. -/
def replayStore1 : Store :=
  ((handle_jsonrpc replayCfg (fun _ => LLMResult.err "boom") "tasks/send" (replayParams "q")
    Json.null "u" []).getD (Json.null, [])).2

/-- The store after a second tasks/send of the same id t whose provider
call succeeds. -/
def replayStore2 : Store :=
  ((handle_jsonrpc replayCfg (fun _ => LLMResult.ok "fine") "tasks/send" (replayParams "q2")
    Json.null "u" replayStore1).getD (Json.null, [])).2

/-- C2 counterexample: after a first tasks/send leaves id t stored with
status failed, a second successful tasks/send of the same id overwrites the
stored status — it ends completed, the prior failed status is gone, and the
replay was neither rejected nor kept as a separate run. -/
theorem completed_status_overwritten_by_resend :
    (storeGet replayStore1 (Json.str "t")).map (fun t => t.status.state) = some "failed" ∧
    (storeGet replayStore2 (Json.str "t")).map (fun t => t.status.state) = some "completed" := by
  decide

/-- C2 amended: a later tasks/send run with an identifier already stored as
completed or failed is accepted and overwrites the stored record wholesale:
afterwards the store maps the identifier to the new run result, and that
result is computed freshly, independent of whatever record the store held
before. -/
theorem resend_overwrites_stored_record (cfg : Config) (oracle : List Message → LLMResult)
    (task_id : Json) (um : String) (store : Store) :
    storeGet (create_task cfg oracle task_id um store).2 task_id =
      some (create_task cfg oracle task_id um store).1 ∧
    (create_task cfg oracle task_id um store).1 = (create_task cfg oracle task_id um []).1 :=
  ⟨create_task_stores_result cfg oracle task_id um store,
    create_task_fresh cfg oracle task_id um store⟩

/-- C4: on any adapter error during a valid tasks/send run, the task status
is set to failed with the textual description of the error as the failure
message text, the run returns a task rather than propagating the
exception, and the JSON-RPC response is a success result envelope holding
the failed task, not a JSON-RPC error object. -/
theorem adapter_error_folds_into_failed_task (cfg : Config) (oracle : List Message → LLMResult)
    (params req_id : Json) (freshId : String) (store : Store)
    (task_id message partsJ : Json) (parts : List Json) (user_text emsg : String)
    (hid : pyGet params "id" (Json.str freshId) = some task_id)
    (hmsg : pyGet params "message" (Json.obj []) = some message)
    (hpartsJ : pyGet message "parts" (Json.arr []) = some partsJ)
    (hparts : pyIter partsJ = some parts)
    (htext : gatherText parts = some user_text)
    (hne : user_text ≠ "")
    (herr : oracle (buildMessages cfg.agentDescription user_text) = LLMResult.err emsg) :
    ∃ t : TaskRec, ∃ store2 : Store,
      handle_jsonrpc cfg oracle "tasks/send" params req_id freshId store =
        some (jsonrpc_result req_id (taskJson t), store2) ∧
      t.status.state = "failed" ∧
      t.status.message = some (Json.obj [("role", Json.str "agent"),
        ("parts", Json.arr [textPart emsg])]) ∧
      storeGet store2 task_id = some t := by
  refine ⟨(create_task cfg oracle task_id user_text store).1,
    (create_task cfg oracle task_id user_text store).2, ?_, ?_, ?_, ?_⟩
  · simpa [handle_jsonrpc] using
      handle_send_eq cfg oracle params req_id freshId store task_id message partsJ parts
        user_text hid hmsg hpartsJ hparts htext hne
  · unfold create_task; simp [herr]
  · unfold create_task; simp [herr]
  · exact create_task_stores_result cfg oracle task_id user_text store

/-- C4 witness: a concrete valid request whose provider call raises with
the error text of an HTTP 500 reply. -/
theorem adapter_error_folds_into_failed_task_witness :
    ∃ t : TaskRec, ∃ store2 : Store,
      handle_jsonrpc ⟨"openai", "m", "k", "", ""⟩
          (fun _ => LLMResult.err "LLM API error 500: upstream down") "tasks/send"
          (Json.obj [("id", Json.str "t9"), ("message", Json.obj [("parts",
            Json.arr [Json.obj [("text", Json.str "Hi")]])])]) (Json.num 7) "u" [] =
        some (jsonrpc_result (Json.num 7) (taskJson t), store2) ∧
      t.status.state = "failed" ∧
      t.status.message = some (Json.obj [("role", Json.str "agent"),
        ("parts", Json.arr [textPart "LLM API error 500: upstream down"])]) ∧
      storeGet store2 (Json.str "t9") = some t :=
  adapter_error_folds_into_failed_task ⟨"openai", "m", "k", "", ""⟩
    (fun _ => LLMResult.err "LLM API error 500: upstream down")
    (Json.obj [("id", Json.str "t9"), ("message", Json.obj [("parts",
      Json.arr [Json.obj [("text", Json.str "Hi")]])])]) (Json.num 7) "u" []
    (Json.str "t9") (Json.obj [("parts", Json.arr [Json.obj [("text", Json.str "Hi")]])])
    (Json.arr [Json.obj [("text", Json.str "Hi")]]) [Json.obj [("text", Json.str "Hi")]]
    "Hi" "LLM API error 500: upstream down"
    (by decide) (by decide) (by decide) (by decide) (by decide) (by decide) rfl

/-- C6: tasks/cancel always returns a JSON-RPC success result whose task is
the stub made of the given identifier and status state canceled; when the
identifier is stored its status is replaced by canceled unconditionally —
whatever the prior state, completed and failed included — and when it is
absent the store is untouched and the canceled stub is returned rather than
an error. -/
theorem cancel_always_returns_canceled (cfg : Config) (oracle : List Message → LLMResult)
    (freshId : String) (params req_id task_id : Json) (store : Store)
    (hid : pyGet params "id" (Json.str "") = some task_id) :
    ∃ store2 : Store,
      handle_jsonrpc cfg oracle "tasks/cancel" params req_id freshId store =
        some (jsonrpc_result req_id (Json.obj [("id", task_id),
          ("status", Json.obj [("state", Json.str "canceled")])]), store2) ∧
      (∀ t : TaskRec, storeGet store task_id = some t →
        storeGet store2 task_id =
          some { t with status := { state := "canceled", message := none } }) ∧
      (storeGet store task_id = none → store2 = store) := by
  refine ⟨(match storeGet store task_id with
    | some t => storeSet store task_id { t with status := { state := "canceled", message := none } }
    | none => store), ?_, ?_, ?_⟩
  · simp [handle_jsonrpc, handle_cancel, hid]
  · intro t ht
    simp [ht, storeGet_storeSet_self]
  · intro h
    simp [h]

/-- C6 witness: cancel of an absent id, and cancel of an id stored as
completed, at concrete inputs. -/
theorem cancel_always_returns_canceled_witness :
    ∃ store2 : Store,
      handle_jsonrpc ⟨"openai", "m", "k", "", ""⟩ (fun _ => LLMResult.ok "x") "tasks/cancel"
          (Json.obj [("id", Json.str "z")]) (Json.num 5) "u"
          [(Json.str "z", ⟨Json.str "z", ⟨"completed", none⟩, [], []⟩)] =
        some (jsonrpc_result (Json.num 5) (Json.obj [("id", Json.str "z"),
          ("status", Json.obj [("state", Json.str "canceled")])]), store2) ∧
      (∀ t : TaskRec,
        storeGet [(Json.str "z", ⟨Json.str "z", ⟨"completed", none⟩, [], []⟩)]
          (Json.str "z") = some t →
        storeGet store2 (Json.str "z") =
          some { t with status := { state := "canceled", message := none } }) ∧
      (storeGet [(Json.str "z", ⟨Json.str "z", ⟨"completed", none⟩, [], []⟩)]
        (Json.str "z") = none → store2 =
          [(Json.str "z", ⟨Json.str "z", ⟨"completed", none⟩, [], []⟩)]) :=
  cancel_always_returns_canceled ⟨"openai", "m", "k", "", ""⟩ (fun _ => LLMResult.ok "x")
    "u" (Json.obj [("id", Json.str "z")]) (Json.num 5) (Json.str "z")
    [(Json.str "z", ⟨Json.str "z", ⟨"completed", none⟩, [], []⟩)] (by decide)

/-- C10: when the identifier is stored, cancel rewrites only the status
field of the stored record — its id, artifacts and history are unchanged —
leaves every other store entry untouched, and the JSON-RPC response body
holds only the identifier and the canceled status, never the artifacts or
the history. -/
theorem cancel_frame_condition (cfg : Config) (oracle : List Message → LLMResult)
    (freshId : String) (params req_id task_id : Json) (store : Store) (t : TaskRec)
    (hid : pyGet params "id" (Json.str "") = some task_id)
    (ht : storeGet store task_id = some t) :
    ∃ t2 : TaskRec, ∃ store2 : Store,
      handle_jsonrpc cfg oracle "tasks/cancel" params req_id freshId store =
        some (jsonrpc_result req_id (Json.obj [("id", task_id),
          ("status", Json.obj [("state", Json.str "canceled")])]), store2) ∧
      storeGet store2 task_id = some t2 ∧
      t2.id = t.id ∧ t2.artifacts = t.artifacts ∧ t2.history = t.history ∧
      t2.status = { state := "canceled", message := none } ∧
      (∀ k : Json, k ≠ task_id → storeGet store2 k = storeGet store k) := by
  refine ⟨{ t with status := { state := "canceled", message := none } },
    storeSet store task_id { t with status := { state := "canceled", message := none } },
    ?_, ?_, rfl, rfl, rfl, rfl, ?_⟩
  · simp [handle_jsonrpc, handle_cancel, hid, ht]
  · exact storeGet_storeSet_self store task_id _
  · intro k hk
    exact storeGet_storeSet_ne store task_id k _ hk

/-- C10 witness: cancel of a stored task carrying one artifact and one
history entry. -/
theorem cancel_frame_condition_witness :
    ∃ t2 : TaskRec, ∃ store2 : Store,
      handle_jsonrpc ⟨"openai", "m", "k", "", ""⟩ (fun _ => LLMResult.ok "x") "tasks/cancel"
          (Json.obj [("id", Json.str "z")]) (Json.num 6) "u"
          [(Json.str "z", ⟨Json.str "z", ⟨"completed", none⟩,
            [Json.obj [("parts", Json.arr [textPart "out"])]],
            [Json.obj [("role", Json.str "agent")]]⟩)] =
        some (jsonrpc_result (Json.num 6) (Json.obj [("id", Json.str "z"),
          ("status", Json.obj [("state", Json.str "canceled")])]), store2) ∧
      storeGet store2 (Json.str "z") = some t2 ∧
      t2.id = Json.str "z" ∧
      t2.artifacts = [Json.obj [("parts", Json.arr [textPart "out"])]] ∧
      t2.history = [Json.obj [("role", Json.str "agent")]] ∧
      t2.status = { state := "canceled", message := none } ∧
      (∀ k : Json, k ≠ Json.str "z" →
        storeGet store2 k =
          storeGet [(Json.str "z", ⟨Json.str "z", ⟨"completed", none⟩,
            [Json.obj [("parts", Json.arr [textPart "out"])]],
            [Json.obj [("role", Json.str "agent")]]⟩)] k) :=
  cancel_frame_condition ⟨"openai", "m", "k", "", ""⟩ (fun _ => LLMResult.ok "x") "u"
    (Json.obj [("id", Json.str "z")]) (Json.num 6) (Json.str "z")
    [(Json.str "z", ⟨Json.str "z", ⟨"completed", none⟩,
      [Json.obj [("parts", Json.arr [textPart "out"])]],
      [Json.obj [("role", Json.str "agent")]]⟩)]
    ⟨Json.str "z", ⟨"completed", none⟩,
      [Json.obj [("parts", Json.arr [textPart "out"])]],
      [Json.obj [("role", Json.str "agent")]]⟩
    (by decide) (by decide)

theorem gatherTextFrom_no_text (parts : List Json)
    (h : ∀ p ∈ parts, partHasText p = false) :
    ∀ acc : String, gatherTextFrom acc parts = some acc := by
  induction parts with
  | nil => intro acc; rfl
  | cons p rest ih =>
      intro acc
      have hp := h p (List.mem_cons_self p rest)
      have hr : ∀ q ∈ rest, partHasText q = false :=
        fun q hq => h q (List.mem_cons_of_mem p hq)
      cases p with
      | obj fields =>
          have hl : fields.lookup "text" = none := by
            cases hl : fields.lookup "text" <;> simp [partHasText, hl] at hp ⊢
          simp [gatherTextFrom, hl, ih hr]
      | null => simp [gatherTextFrom, ih hr]
      | bool b => simp [gatherTextFrom, ih hr]
      | num n => simp [gatherTextFrom, ih hr]
      | str s => simp [gatherTextFrom, ih hr]
      | arr xs => simp [gatherTextFrom, ih hr]

/-- C7: the dispatcher returns a JSON-RPC error with code -32601 for any
method other than tasks/send, tasks/get and tasks/cancel; an error with
code -32602 for a tasks/send whose message has no text-carrying part (the
concatenated user text is then empty); and an error with code -32602 for a
tasks/get whose identifier is not in the store. -/
theorem dispatcher_error_codes (cfg : Config) (oracle : List Message → LLMResult)
    (freshId : String) :
    (∀ (method : String) (params req_id : Json) (store : Store),
      method ≠ "tasks/send" → method ≠ "tasks/get" → method ≠ "tasks/cancel" →
      handle_jsonrpc cfg oracle method params req_id freshId store =
        some (jsonrpc_error req_id (-32601)
          ("Method " ++ sgq ++ method ++ sgq ++ " not found"), store)) ∧
    (∀ (params req_id message partsJ task_id : Json) (store : Store) (parts : List Json),
      pyGet params "id" (Json.str freshId) = some task_id →
      pyGet params "message" (Json.obj []) = some message →
      pyGet message "parts" (Json.arr []) = some partsJ →
      pyIter partsJ = some parts →
      (∀ p ∈ parts, partHasText p = false) →
      handle_jsonrpc cfg oracle "tasks/send" params req_id freshId store =
        some (jsonrpc_error req_id (-32602) "No text content in message", store)) ∧
    (∀ (params req_id task_id : Json) (store : Store),
      pyGet params "id" (Json.str "") = some task_id →
      storeGet store task_id = none →
      handle_jsonrpc cfg oracle "tasks/get" params req_id freshId store =
        some (jsonrpc_error req_id (-32602)
          ("Task " ++ sgq ++ pyStrOf task_id ++ sgq ++ " not found"), store)) := by
  refine ⟨?_, ?_, ?_⟩
  · intro method params req_id store h1 h2 h3
    simp [handle_jsonrpc, h1, h2, h3]
  · intro params req_id message partsJ task_id store parts hid hmsg hpartsJ hparts hno
    have hg := gatherTextFrom_no_text parts hno ""
    simp [handle_jsonrpc, handle_send, hid, hmsg, hpartsJ, hparts, gatherText, hg]
  · intro params req_id task_id store hid hnone
    simp [handle_jsonrpc, handle_get, hid, hnone]

/-- C7 witness: an unknown method, a tasks/send with a single non-text
part, and a tasks/get of an absent id, all at concrete inputs. -/
theorem dispatcher_error_codes_witness :
    handle_jsonrpc ⟨"openai", "m", "k", "", ""⟩ (fun _ => LLMResult.ok "x") "tasks/list"
        (Json.obj []) (Json.num 1) "u" [] =
      some (jsonrpc_error (Json.num 1) (-32601)
        ("Method " ++ sgq ++ "tasks/list" ++ sgq ++ " not found"), []) ∧
    handle_jsonrpc ⟨"openai", "m", "k", "", ""⟩ (fun _ => LLMResult.ok "x") "tasks/send"
        (Json.obj [("id", Json.str "t2"), ("message", Json.obj [("parts",
          Json.arr [Json.obj [("kind", Json.str "file")]])])]) (Json.num 2) "u" [] =
      some (jsonrpc_error (Json.num 2) (-32602) "No text content in message", []) ∧
    handle_jsonrpc ⟨"openai", "m", "k", "", ""⟩ (fun _ => LLMResult.ok "x") "tasks/get"
        (Json.obj [("id", Json.str "nope")]) (Json.num 3) "u" [] =
      some (jsonrpc_error (Json.num 3) (-32602)
        ("Task " ++ sgq ++ "nope" ++ sgq ++ " not found"), []) :=
  ⟨(dispatcher_error_codes ⟨"openai", "m", "k", "", ""⟩ (fun _ => LLMResult.ok "x") "u").1
      "tasks/list" (Json.obj []) (Json.num 1) [] (by decide) (by decide) (by decide),
    (dispatcher_error_codes ⟨"openai", "m", "k", "", ""⟩ (fun _ => LLMResult.ok "x") "u").2.1
      (Json.obj [("id", Json.str "t2"), ("message", Json.obj [("parts",
        Json.arr [Json.obj [("kind", Json.str "file")]])])]) (Json.num 2)
      (Json.obj [("parts", Json.arr [Json.obj [("kind", Json.str "file")]])])
      (Json.arr [Json.obj [("kind", Json.str "file")]]) (Json.str "t2") []
      [Json.obj [("kind", Json.str "file")]]
      (by decide) (by decide) (by decide) (by decide) (by decide),
    (dispatcher_error_codes ⟨"openai", "m", "k", "", ""⟩ (fun _ => LLMResult.ok "x") "u").2.2
      (Json.obj [("id", Json.str "nope")]) (Json.num 3) (Json.str "nope") []
      (by decide) (by decide)⟩

/-- C3: for each of the four provider identifiers and every message list,
the constructed request matches the documented wire shape exactly: the
documented URL rule (default URL, or endpoint-derived path when an
endpoint override is configured — an endpoint without a trailing slash, and
required for azure-openai, whose row documents only the endpoint-derived
path), the documented auth headers, and the documented body field names
and nesting. -/
theorem adapter_request_matches_documented_shape (c : Config) (msgs : List Message)
    (hep : rstripSlash c.apiEndpoint = c.apiEndpoint) :
    (c.modelProvider = "openai" →
      (buildRequest c msgs).url = specUrl c ∧
      (buildRequest c msgs).headers = specHeaders c ∧
      specBodyShape c msgs (buildRequest c msgs).body) ∧
    (c.modelProvider = "azure-openai" → c.apiEndpoint ≠ "" →
      (buildRequest c msgs).url = specUrl c ∧
      (buildRequest c msgs).headers = specHeaders c ∧
      specBodyShape c msgs (buildRequest c msgs).body) ∧
    (c.modelProvider = "anthropic" →
      (buildRequest c msgs).url = specUrl c ∧
      (buildRequest c msgs).headers = specHeaders c ∧
      specBodyShape c msgs (buildRequest c msgs).body) ∧
    (c.modelProvider = "ollama" →
      (buildRequest c msgs).url = specUrl c ∧
      (buildRequest c msgs).headers = specHeaders c ∧
      specBodyShape c msgs (buildRequest c msgs).body) := by
  refine ⟨?_, ?_, ?_, ?_⟩
  · intro hp
    by_cases he : c.apiEndpoint = "" <;>
      simp [buildRequest, get_api_url, specUrl, specHeaders, specBodyShape, hp, he, hep]
  · intro hp he
    simp [buildRequest, get_api_url, specUrl, specHeaders, specBodyShape, hp, he, hep]
  · intro hp
    refine ⟨?_, ?_, ?_⟩
    · by_cases he : c.apiEndpoint = "" <;>
        simp [buildRequest, get_api_url, specUrl, hp, he, hep]
    · simp [buildRequest, specHeaders, hp]
    · by_cases hs : (anthropicSplit msgs).1 = ""
      · simp only [specBodyShape, hp, if_pos rfl]
        exact Or.inl ⟨(anthropicSplit msgs).2, 4096, by simp [buildRequest, hp, hs]⟩
      · simp only [specBodyShape, hp, if_pos rfl]
        exact Or.inr ⟨(anthropicSplit msgs).2, 4096, (anthropicSplit msgs).1,
          by simp [buildRequest, hp, hs]⟩
  · intro hp
    by_cases he : c.apiEndpoint = "" <;>
      simp [buildRequest, get_api_url, specUrl, specHeaders, specBodyShape, hp, he, hep]

/-- C3 witness: the azure-openai variant at a concrete endpoint-bearing
configuration and one user message. -/
theorem adapter_request_matches_documented_shape_witness :
    (buildRequest ⟨"azure-openai", "gpt", "K", "https://x", "d"⟩ [⟨"user", "q"⟩]).url =
      specUrl ⟨"azure-openai", "gpt", "K", "https://x", "d"⟩ ∧
    (buildRequest ⟨"azure-openai", "gpt", "K", "https://x", "d"⟩ [⟨"user", "q"⟩]).headers =
      specHeaders ⟨"azure-openai", "gpt", "K", "https://x", "d"⟩ ∧
    specBodyShape ⟨"azure-openai", "gpt", "K", "https://x", "d"⟩ [⟨"user", "q"⟩]
      (buildRequest ⟨"azure-openai", "gpt", "K", "https://x", "d"⟩ [⟨"user", "q"⟩]).body :=
  (adapter_request_matches_documented_shape ⟨"azure-openai", "gpt", "K", "https://x", "d"⟩
    [⟨"user", "q"⟩] (by decide)).2.1 rfl (by decide)

/-- C8: for any provider identifier that is none of the four recognized
variants, the adapter constructs exactly the request it would construct
for the openai variant with the same configuration and messages; an
unrecognized identifier is never an error. -/
theorem unknown_provider_defaults_to_openai (c : Config) (msgs : List Message)
    (h1 : c.modelProvider ≠ "openai") (h2 : c.modelProvider ≠ "azure-openai")
    (h3 : c.modelProvider ≠ "anthropic") (h4 : c.modelProvider ≠ "ollama") :
    buildRequest c msgs = buildRequest { c with modelProvider := "openai" } msgs := by
  unfold buildRequest get_api_url
  simp [h1, h2, h3, h4]

/-- C8 witness: the unrecognized identifier groq builds the openai-shaped
request. -/
theorem unknown_provider_defaults_to_openai_witness :
    buildRequest ⟨"groq", "m", "K", "", "d"⟩ [⟨"user", "q"⟩] =
      buildRequest ⟨"openai", "m", "K", "", "d"⟩ [⟨"user", "q"⟩] :=
  unknown_provider_defaults_to_openai ⟨"groq", "m", "K", "", "d"⟩ [⟨"user", "q"⟩]
    (by decide) (by decide) (by decide) (by decide)

/-- C9 counterexample: with two system messages, the anthropic body hoists
the content of the last system message, not the leading one — at this
concrete input the system field is the string b, not the leading content
a, refuting the claim as stated. -/
theorem anthropic_hoists_last_not_leading :
    (buildRequest ⟨"anthropic", "m", "K", "", ""⟩
        [⟨"system", "a"⟩, ⟨"system", "b"⟩, ⟨"user", "x"⟩]).body =
      Json.obj [("model", Json.str "m"), ("max_tokens", Json.num 4096),
        ("messages", Json.arr [msgJson ⟨"user", "x"⟩]), ("system", Json.str "b")] ∧
    (buildRequest ⟨"anthropic", "m", "K", "", ""⟩
        [⟨"system", "a"⟩, ⟨"system", "b"⟩, ⟨"user", "x"⟩]).body ≠
      Json.obj [("model", Json.str "m"), ("max_tokens", Json.num 4096),
        ("messages", Json.arr [msgJson ⟨"user", "x"⟩]), ("system", Json.str "a")] := by
  decide

/-- C9 amended: for provider anthropic, the messages field of the body is
exactly the non-system messages in their original order (system messages
never appear in it), and the content of the last system message, when
non-empty, is hoisted into a trailing top-level system field; when the
list has no system message, or the last one has empty content, the system
field is omitted. -/
theorem anthropic_last_system_hoisted (c : Config) (msgs : List Message)
    (hp : c.modelProvider = "anthropic") :
    (buildRequest c msgs).body =
      Json.obj
        ([("model", Json.str c.modelName), ("max_tokens", Json.num 4096),
          ("messages", Json.arr ((nonSystemMsgs msgs).map msgJson))] ++
          (if lastSystemContent msgs ≠ "" then
            [("system", Json.str (lastSystemContent msgs))] else [])) := by
  by_cases hs : lastSystemContent msgs = "" <;>
    simp [buildRequest, hp, anthropicSplit_spec, hs]

/-- C9 amended witness: one leading system message followed by one user
message. -/
theorem anthropic_last_system_hoisted_witness :
    (buildRequest ⟨"anthropic", "m", "K", "", ""⟩ [⟨"system", "d"⟩, ⟨"user", "q"⟩]).body =
      Json.obj
        ([("model", Json.str "m"), ("max_tokens", Json.num 4096),
          ("messages", Json.arr ((nonSystemMsgs [⟨"system", "d"⟩, ⟨"user", "q"⟩]).map msgJson))] ++
          (if lastSystemContent [⟨"system", "d"⟩, ⟨"user", "q"⟩] ≠ "" then
            [("system", Json.str (lastSystemContent [⟨"system", "d"⟩, ⟨"user", "q"⟩]))]
          else [])) :=
  anthropic_last_system_hoisted ⟨"anthropic", "m", "K", "", ""⟩
    [⟨"system", "d"⟩, ⟨"user", "q"⟩] rfl

/-- C5: for each provider variant, extracting the reply text from a body
missing the expected fields — choices, content, message, or the inner text
and content fields — returns the empty string as a normal value and never
raises; and extracting from a well-formed synthetic reply yields the text
at the documented path: choices 0 message content for the
openai-compatible variants, content 0 text for anthropic, message content
for ollama. -/
theorem parse_reply_missing_fields :
    (∀ fields : List (String × Json), fields.lookup "content" = none →
      parseReply "anthropic" (Json.obj fields) = some (Json.str "")) ∧
    (∀ (fields c0 : List (String × Json)) (rest : List Json),
      fields.lookup "content" = some (Json.arr (Json.obj c0 :: rest)) →
      c0.lookup "text" = none →
      parseReply "anthropic" (Json.obj fields) = some (Json.str "")) ∧
    (∀ fields : List (String × Json), fields.lookup "message" = none →
      parseReply "ollama" (Json.obj fields) = some (Json.str "")) ∧
    (∀ fields m : List (String × Json),
      fields.lookup "message" = some (Json.obj m) → m.lookup "content" = none →
      parseReply "ollama" (Json.obj fields) = some (Json.str "")) ∧
    (∀ (p : String) (fields : List (String × Json)),
      p ≠ "anthropic" → p ≠ "ollama" → fields.lookup "choices" = none →
      parseReply p (Json.obj fields) = some (Json.str "")) ∧
    (∀ (p : String) (fields c0 : List (String × Json)) (rest : List Json),
      p ≠ "anthropic" → p ≠ "ollama" →
      fields.lookup "choices" = some (Json.arr (Json.obj c0 :: rest)) →
      c0.lookup "message" = none →
      parseReply p (Json.obj fields) = some (Json.str "")) ∧
    (∀ (p : String) (fields c0 m : List (String × Json)) (rest : List Json),
      p ≠ "anthropic" → p ≠ "ollama" →
      fields.lookup "choices" = some (Json.arr (Json.obj c0 :: rest)) →
      c0.lookup "message" = some (Json.obj m) → m.lookup "content" = none →
      parseReply p (Json.obj fields) = some (Json.str "")) ∧
    (∀ s : String, parseReply "anthropic"
      (Json.obj [("content", Json.arr [Json.obj [("text", Json.str s)]])]) =
        some (Json.str s)) ∧
    (∀ s : String, parseReply "ollama"
      (Json.obj [("message", Json.obj [("content", Json.str s)])]) = some (Json.str s)) ∧
    (∀ p s : String, p ≠ "anthropic" → p ≠ "ollama" →
      parseReply p (Json.obj [("choices", Json.arr [Json.obj [("message",
        Json.obj [("content", Json.str s)])]])]) = some (Json.str s)) := by
  refine ⟨?_, ?_, ?_, ?_, ?_, ?_, ?_, ?_, ?_, ?_⟩
  · intro fields h
    simp [parseReply, pyGet, pyIndex, h]
  · intro fields c0 rest h h0
    simp [parseReply, pyGet, pyIndex, h, h0]
  · intro fields h
    simp [parseReply, pyGet, h]
  · intro fields m h h0
    simp [parseReply, pyGet, h, h0]
  · intro p fields h1 h2 h
    simp [parseReply, pyGet, pyIndex, h1, h2, h]
  · intro p fields c0 rest h1 h2 h h0
    simp [parseReply, pyGet, pyIndex, h1, h2, h, h0]
  · intro p fields c0 m rest h1 h2 h h0 hm
    simp [parseReply, pyGet, pyIndex, h1, h2, h, h0, hm]
  · intro s
    simp [parseReply, pyGet, pyIndex]
  · intro s
    simp [parseReply, pyGet]
  · intro p s h1 h2
    simp [parseReply, pyGet, pyIndex, h1, h2]

/-- C5 witness: one missing-field reply and one well-formed reply per
provider variant, at concrete inputs. -/
theorem parse_reply_missing_fields_witness :
    parseReply "anthropic" (Json.obj [("x", Json.null)]) = some (Json.str "") ∧
    parseReply "anthropic" (Json.obj [("content", Json.arr [Json.obj [("y", Json.null)]])]) =
      some (Json.str "") ∧
    parseReply "ollama" (Json.obj []) = some (Json.str "") ∧
    parseReply "ollama" (Json.obj [("message", Json.obj [("z", Json.null)])]) =
      some (Json.str "") ∧
    parseReply "openai" (Json.obj []) = some (Json.str "") ∧
    parseReply "openai" (Json.obj [("choices", Json.arr [Json.obj [("w", Json.null)]])]) =
      some (Json.str "") ∧
    parseReply "azure-openai" (Json.obj [("choices", Json.arr [Json.obj [("message",
      Json.obj [("role", Json.str "assistant")])]])]) = some (Json.str "") ∧
    parseReply "anthropic" (Json.obj [("content", Json.arr [Json.obj [("text",
      Json.str "A")]])]) = some (Json.str "A") ∧
    parseReply "ollama" (Json.obj [("message", Json.obj [("content", Json.str "B")])]) =
      some (Json.str "B") ∧
    parseReply "openai" (Json.obj [("choices", Json.arr [Json.obj [("message",
      Json.obj [("content", Json.str "C")])]])]) = some (Json.str "C") :=
  ⟨parse_reply_missing_fields.1 [("x", Json.null)] rfl,
    parse_reply_missing_fields.2.1 [("content", Json.arr [Json.obj [("y", Json.null)]])]
      [("y", Json.null)] [] rfl rfl,
    parse_reply_missing_fields.2.2.1 [] rfl,
    parse_reply_missing_fields.2.2.2.1 [("message", Json.obj [("z", Json.null)])]
      [("z", Json.null)] rfl rfl,
    parse_reply_missing_fields.2.2.2.2.1 "openai" [] (by decide) (by decide) rfl,
    parse_reply_missing_fields.2.2.2.2.2.1 "openai"
      [("choices", Json.arr [Json.obj [("w", Json.null)]])] [("w", Json.null)] []
      (by decide) (by decide) rfl rfl,
    parse_reply_missing_fields.2.2.2.2.2.2.1 "azure-openai"
      [("choices", Json.arr [Json.obj [("message", Json.obj [("role", Json.str "assistant")])]])]
      [("message", Json.obj [("role", Json.str "assistant")])]
      [("role", Json.str "assistant")] [] (by decide) (by decide) rfl rfl rfl,
    parse_reply_missing_fields.2.2.2.2.2.2.2.1 "A",
    parse_reply_missing_fields.2.2.2.2.2.2.2.2.1 "B",
    parse_reply_missing_fields.2.2.2.2.2.2.2.2.2 "openai" "C" (by decide) (by decide)⟩
